import Mathlib

/-
Shallow embedding of the db_expectations package:
  - src/db_expectations/suites/__init__.py  (ExpectationSuites builders)
  - src/db_expectations/validator.py        (DatabaseValidator orchestration)
  - src/db_expectations/decorators.py       (validate_before / validate_after / validate_both)
Python dicts used as expectation kwargs are modelled as ordered association
lists over a small value type; Python truthiness of optional strings is made
explicit; exceptions become an error sum type threaded through Except.
-/

namespace DbExpectations

/-- Values that appear inside expectation kwargs dictionaries: strings,
integers, and the Python None sentinel (the kwargs the claims exercise use
no other value shapes). -/
inductive Val where
  | vStr (s : String)
  | vInt (n : Int)
  | vNone
deriving Repr, DecidableEq

/-- One expectation dictionary as built by ExpectationSuites: the
"expectation_type" entry plus the "kwargs" sub-dictionary (kept as an
ordered association list, mirroring insertion order of the Python dict). -/
structure Expectation where
  expectation_type : String
  kwargs : List (String × Val)
deriving Repr, DecidableEq

/-- One range description handed to range_checks for a column. The Python
code tests membership of the "min" and "max" keys, so each bound is an
Option: some v means the key is present with value v. -/
structure RangeDef where
  min : Option Val
  max : Option Val
deriving Repr, DecidableEq

/-- ExpectationSuites.null_checks: one expect_column_values_to_not_be_null
dictionary per column, in list order. -/
def null_checks (columns : List String) : List Expectation :=
  columns.map fun col =>
    { expectation_type := "expect_column_values_to_not_be_null"
      kwargs := [("column", Val.vStr col)] }

/-- ExpectationSuites.range_checks: walks the column-to-range mapping in
order; both bounds present gives expect_column_values_to_be_between, only
min gives expect_column_min_to_be_between with max_value None, only max
gives expect_column_max_to_be_between with min_value None, neither bound
appends nothing (the Python if/elif chain has no final else). -/
def range_checks (column_ranges : List (String × RangeDef)) : List Expectation :=
  column_ranges.flatMap fun cr =>
    match cr.2.min, cr.2.max with
    | some mn, some mx =>
        [{ expectation_type := "expect_column_values_to_be_between"
           kwargs := [("column", Val.vStr cr.1), ("min_value", mn), ("max_value", mx)] }]
    | some mn, none =>
        [{ expectation_type := "expect_column_min_to_be_between"
           kwargs := [("column", Val.vStr cr.1), ("min_value", mn), ("max_value", Val.vNone)] }]
    | none, some mx =>
        [{ expectation_type := "expect_column_max_to_be_between"
           kwargs := [("column", Val.vStr cr.1), ("min_value", Val.vNone), ("max_value", mx)] }]
    | none, none => []

/-- ExpectationSuites.combine: starts from an empty list and extends it with
each argument suite in order. -/
def combine (suite_results : List (List Expectation)) : List Expectation :=
  suite_results.foldl (fun combined suite => combined ++ suite) []

/-- C6: null_checks returns exactly one not-null descriptor per column, in
the same order (index i of the output targets index i of the input), and an
empty column list yields the empty suite. -/
theorem null_checks_one_rule_per_column (columns : List String) :
    (null_checks columns).length = columns.length
    ∧ (∀ i : Nat, (null_checks columns)[i]?
        = (columns[i]?).map fun col =>
          { expectation_type := "expect_column_values_to_not_be_null"
            kwargs := [("column", Val.vStr col)] })
    ∧ null_checks [] = [] := by
  refine ⟨by simp [null_checks], fun i => ?_, rfl⟩
  simp [null_checks, List.getElem?_map]

/-- C7: combine concatenates in argument order, so its length is the sum of
the operand lengths, relative order inside each operand is preserved (the
result literally is the append), no deduplication happens, and the
operation is associative. -/
theorem combine_is_ordered_concat (a b c : List Expectation) :
    combine [a, b] = a ++ b
    ∧ (combine [a, b]).length = a.length + b.length
    ∧ combine [combine [a, b], c] = combine [a, combine [b, c]] := by
  refine ⟨?_, ?_, ?_⟩ <;> simp [combine, List.append_assoc]

/-- C5 counterexample: in_range with only a lower bound for "age" produces
an expect_column_min_to_be_between rule, which is not the per-value kind
expect_column_values_to_be_between the claim asserts. -/
theorem range_checks_min_only_not_per_value :
    (range_checks [("age", { min := some (Val.vInt 40), max := none })]).map
        (fun e => e.expectation_type)
      = ["expect_column_min_to_be_between"]
    ∧ "expect_column_min_to_be_between" ≠ "expect_column_values_to_be_between" := by
  exact ⟨rfl, by decide⟩

/-- C5 amended: a column with both bounds yields the two-sided per-value
range rule; a column with only one bound yields a one-sided aggregate rule
(column-min-between when only min is given, column-max-between when only
max is given) in which the missing bound is present as an explicit None
sentinel rather than omitted; a column with neither bound contributes
nothing; later columns are processed unchanged afterwards. -/
theorem range_checks_shape (c : String) (mn mx : Val) (rest : List (String × RangeDef)) :
    range_checks ((c, { min := some mn, max := some mx }) :: rest)
      = { expectation_type := "expect_column_values_to_be_between"
          kwargs := [("column", Val.vStr c), ("min_value", mn), ("max_value", mx)] }
        :: range_checks rest
    ∧ range_checks ((c, { min := some mn, max := none }) :: rest)
      = { expectation_type := "expect_column_min_to_be_between"
          kwargs := [("column", Val.vStr c), ("min_value", mn), ("max_value", Val.vNone)] }
        :: range_checks rest
    ∧ range_checks ((c, { min := none, max := some mx }) :: rest)
      = { expectation_type := "expect_column_max_to_be_between"
          kwargs := [("column", Val.vStr c), ("min_value", Val.vNone), ("max_value", mx)] }
        :: range_checks rest
    ∧ range_checks ((c, { min := none, max := none }) :: rest) = range_checks rest :=
  ⟨rfl, rfl, rfl, rfl⟩

/-- A concrete data batch: the rows the engine evaluates a suite against,
each row an association of column names to values. -/
def Batch := List (List (String × Val))

/-- The external evaluation engine as the orchestrator sees it:
hasPrimitive models the Python hasattr check on the batch validator object
(does a method of that name exist), and evalPrimitive models invoking the
named check with its kwargs against the batch and reading off its boolean
outcome. -/
structure Engine where
  hasPrimitive : String → Bool
  evalPrimitive : String → List (String × Val) → Batch → Bool

/-- One per-rule entry of the results list inside a report. -/
structure RuleResult where
  rule : Expectation
  passed : Bool
deriving Repr, DecidableEq

/-- The formatted validation results dictionary returned by
DatabaseValidator: the top-level success flag, the four statistics fields,
and the ordered per-rule results list. -/
structure Report where
  success : Bool
  evaluated_expectations : Nat
  successful_expectations : Nat
  unsuccessful_expectations : Nat
  success_percent : ℚ
  results : List RuleResult
deriving Repr, DecidableEq

/-- Modelled from the spec: the aggregate-and-report step of the external
evaluation engine (great_expectations), which is not part of src. Spec
section 6 says the engine returns per-rule boolean outcomes and aggregate
counts, and section 3 defines the aggregate fields: evaluated is the number
of rules run, succeeded and failed count the boolean outcomes, success
holds when nothing failed, success_percent is 100 * succeeded / evaluated
with the empty case defined as 100. -/
def aggregateResults (rs : List RuleResult) : Report :=
  let evaluated := rs.length
  let succeeded := (rs.filter fun r => r.passed).length
  let failed := (rs.filter fun r => !r.passed).length
  { success := failed == 0
    evaluated_expectations := evaluated
    successful_expectations := succeeded
    unsuccessful_expectations := failed
    success_percent :=
      if evaluated = 0 then (100 : ℚ) else 100 * (succeeded : ℚ) / (evaluated : ℚ)
    results := rs }

/-- DatabaseValidator._format_results: copies the engine aggregate into the
clean results dictionary field by field (every key the code reads is always
present on the modelled engine output, so the Python .get defaults never
fire). -/
def format_results (r : Report) : Report :=
  { success := r.success
    evaluated_expectations := r.evaluated_expectations
    successful_expectations := r.successful_expectations
    unsuccessful_expectations := r.unsuccessful_expectations
    success_percent := r.success_percent
    results := r.results }

/-- Mutable state of a DatabaseValidator instance: the asset counter bumped
on every validate call, and the names of expectation suites already stored
in the context (stored suites are created empty and the interactive
expectations added per call are not written back to them). -/
structure ValidatorState where
  asset_counter : Nat
  suite_names : List String
deriving Repr, DecidableEq

/-- Get-or-create of a named expectation suite in the context registry. -/
def addSuiteName (names : List String) (n : String) : List String :=
  if names.contains n then names else names ++ [n]

/-- The expectation loop shared by validate_table and validate_query: each
dictionary expectation whose expectation_type is truthy and matches an
engine primitive (the hasattr guard) is invoked against the batch; any
other entry is passed over without effect. -/
def run_expectations (eng : Engine) (batch : Batch)
    (expectations : List Expectation) : List RuleResult :=
  (expectations.filter fun e =>
      !e.expectation_type.isEmpty && eng.hasPrimitive e.expectation_type).map
    fun e => { rule := e, passed := eng.evalPrimitive e.expectation_type e.kwargs batch }

/-- DatabaseValidator.validate_table: bumps the asset counter, derives a
default suite name from the table name and counter when none is given,
registers the suite name, binds the batch of the named table, runs the
expectation loop, validates, and returns the formatted results together
with the updated validator state. tableData gives the current contents of
each table. -/
def validate_table (eng : Engine) (tableData : String → Batch)
    (vs : ValidatorState) (table_name : String) (suite_name : Option String)
    (expectations : List Expectation) : Report × ValidatorState :=
  let counter := vs.asset_counter + 1
  let sname := suite_name.getD (table_name ++ "_suite_" ++ toString counter)
  let names := addSuiteName vs.suite_names sname
  let rs := run_expectations eng (tableData table_name) expectations
  (format_results (aggregateResults rs), { asset_counter := counter, suite_names := names })

/-- DatabaseValidator.validate_query: same orchestration against the batch
produced by a query; asset and suite names default from the counter.
queryData gives the current result batch of each query text. -/
def validate_query (eng : Engine) (queryData : String → Batch)
    (vs : ValidatorState) (query : String) (asset_name : Option String)
    (suite_name : Option String) (expectations : List Expectation) :
    Report × ValidatorState :=
  let counter := vs.asset_counter + 1
  let _aname := asset_name.getD ("query_asset_" ++ toString counter)
  let sname := suite_name.getD ("query_suite_" ++ toString counter)
  let names := addSuiteName vs.suite_names sname
  let rs := run_expectations eng (queryData query) expectations
  (format_results (aggregateResults rs), { asset_counter := counter, suite_names := names })

/-- Helper: the two boolean filters of a results list split its length. -/
theorem length_filter_passed_add (rs : List RuleResult) :
    (rs.filter fun r => r.passed).length + (rs.filter fun r => !r.passed).length
      = rs.length := by
  induction rs with
  | nil => rfl
  | cons r rest ih =>
    by_cases h : r.passed = true <;>
      simp [List.filter_cons, h, ih] <;> omega

/-- A demonstration engine knowing exactly the not-null primitive, which
always passes; used only to instantiate hypotheses of the theorems below at
concrete inputs. -/
def demoEngine : Engine :=
  { hasPrimitive := fun s => s == "expect_column_values_to_not_be_null"
    evalPrimitive := fun _ _ _ => true }

/-- A demonstration database with a single empty table. -/
def demoData : String → Batch := fun _ => []

/-- C4: every report produced by the orchestrator satisfies the statistics
invariants: evaluated equals succeeded plus failed, success holds exactly
when nothing failed, and success_percent is 100 * succeeded / evaluated for
a nonempty evaluation and 100 for an empty one. -/
theorem report_statistics_invariants (eng : Engine) (tableData : String → Batch)
    (vs : ValidatorState) (table_name : String) (suite_name : Option String)
    (expectations : List Expectation) (r : Report)
    (hr : r = (validate_table eng tableData vs table_name suite_name expectations).1) :
    r.evaluated_expectations = r.successful_expectations + r.unsuccessful_expectations
    ∧ (r.success = true ↔ r.unsuccessful_expectations = 0)
    ∧ (0 < r.evaluated_expectations →
        r.success_percent
          = 100 * (r.successful_expectations : ℚ) / (r.evaluated_expectations : ℚ))
    ∧ (r.evaluated_expectations = 0 → r.success_percent = 100) := by
  subst hr
  refine ⟨(length_filter_passed_add _).symm, by simp [validate_table, format_results,
    aggregateResults], ?_, ?_⟩
  · intro h
    have hne : (run_expectations eng (tableData table_name) expectations).length ≠ 0 := by
      simpa [validate_table, format_results, aggregateResults] using Nat.pos_iff_ne_zero.mp h
    simp [validate_table, format_results, aggregateResults, hne]
  · intro h
    have hz : (run_expectations eng (tableData table_name) expectations).length = 0 := by
      simpa [validate_table, format_results, aggregateResults] using h
    simp [validate_table, format_results, aggregateResults, hz]

/-- C4 witness: the invariants theorem applied to a concrete run with an
empty suite gives success_percent 100. -/
theorem report_statistics_invariants_witness :
    (validate_table demoEngine demoData { asset_counter := 0, suite_names := [] }
        "users" none []).1.success_percent = 100 :=
  (report_statistics_invariants demoEngine demoData
      { asset_counter := 0, suite_names := [] } "users" none [] _ rfl).2.2.2 rfl

/-- C8: a rule whose kind matches no engine primitive is skipped silently
by both orchestration paths: removing it from the suite leaves the report
unchanged (same success flag, same counts, same remaining per-rule
results), so it neither raises, nor fails the batch, nor counts as a
failure, and every other rule is still evaluated. -/
theorem unknown_kind_skipped (eng : Engine) (tableData queryData : String → Batch)
    (vs vs2 : ValidatorState) (table_name query : String)
    (suite_name asset_name : Option String) (pre post : List Expectation)
    (u : Expectation) (h : eng.hasPrimitive u.expectation_type = false) :
    (validate_table eng tableData vs table_name suite_name (pre ++ u :: post)).1
      = (validate_table eng tableData vs table_name suite_name (pre ++ post)).1
    ∧ (validate_query eng queryData vs2 query asset_name suite_name (pre ++ u :: post)).1
      = (validate_query eng queryData vs2 query asset_name suite_name (pre ++ post)).1 := by
  constructor <;>
    simp [validate_table, validate_query, run_expectations, List.filter_append,
      List.filter_cons, h]

/-- C8 witness: with the demonstration engine, inserting a mystery rule
kind between two not-null rules leaves the concrete table report unchanged. -/
theorem unknown_kind_skipped_witness :
    (validate_table demoEngine demoData { asset_counter := 0, suite_names := [] }
        "users" none
        (null_checks ["id"]
          ++ { expectation_type := "mystery_check", kwargs := [] } :: null_checks ["name"])).1
      = (validate_table demoEngine demoData { asset_counter := 0, suite_names := [] }
          "users" none (null_checks ["id"] ++ null_checks ["name"])).1 :=
  (unknown_kind_skipped demoEngine demoData demoData
      { asset_counter := 0, suite_names := [] } { asset_counter := 0, suite_names := [] }
      "users" "SELECT 1" none none (null_checks ["id"]) (null_checks ["name"])
      { expectation_type := "mystery_check", kwargs := [] } (by decide)).1

/-- C9: running the orchestrator a second time with the same target, suite
name, and expectations against unchanged table data produces a report equal
to the first one in every field: the asset counter bumped by the first call
renames assets and default suites but never reaches the report. -/
theorem orchestrator_idempotent (eng : Engine) (tableData : String → Batch)
    (vs : ValidatorState) (table_name : String) (suite_name : Option String)
    (expectations : List Expectation) :
    (validate_table eng tableData
        (validate_table eng tableData vs table_name suite_name expectations).2
        table_name suite_name expectations).1
      = (validate_table eng tableData vs table_name suite_name expectations).1 := rfl

/-- The exceptions the decorator wrappers can raise or re-raise:
preconditionFailed and postconditionFailed model the AssertionError raised
on a failing pre- or post-validation (told apart in the code only by their
message), configurationError models the ValueError raised when neither a
table nor a query is supplied, and orchestratorError stands for any
exception escaping the validator call itself (connectivity loss, engine
misconfiguration, and so on). -/
inductive HookError where
  | preconditionFailed (msg : String)
  | postconditionFailed (msg : String)
  | configurationError (msg : String)
  | orchestratorError (msg : String)
deriving Repr, DecidableEq

/-- The validator as a decorator sees it: two fallible calls returning the
formatted results whose success flag the wrapper reads. Internal validator
state is irrelevant to the hook control flow and is elided. -/
structure HookValidator where
  validate_table : String → Option String → List Expectation → Except HookError Report
  validate_query : String → String → Option String → List Expectation → Except HookError Report

/-- Python truthiness of an Optional[str]: None and the empty string are
falsy. -/
def strTruthy : Option String → Bool
  | none => false
  | some s => !s.isEmpty

/-- The body of the try block of validate_before: choose the target by
truthiness of table_name and then query, call the validator, and raise an
AssertionError when the report failed and raise_on_failure is set; with
neither target, raise the ValueError. Any error value returned here is
what the except block of the wrapper catches. -/
def pre_attempt (v : HookValidator) (table_name query suite_name : Option String)
    (expectations : List Expectation) (raise_on_failure : Bool) (funcName : String) :
    Except HookError Unit :=
  if strTruthy table_name then
    match v.validate_table (table_name.getD "") suite_name expectations with
    | Except.error e => Except.error e
    | Except.ok results =>
      if !results.success && raise_on_failure then
        Except.error (HookError.preconditionFailed ("Pre-validation failed for " ++ funcName))
      else Except.ok ()
  else if strTruthy query then
    match v.validate_query (query.getD "") (funcName ++ "_pre") suite_name expectations with
    | Except.error e => Except.error e
    | Except.ok results =>
      if !results.success && raise_on_failure then
        Except.error (HookError.preconditionFailed ("Pre-validation failed for " ++ funcName))
      else Except.ok ()
  else Except.error (HookError.configurationError "Either table_name or query must be provided")

/-- The wrapper installed by validate_before: run the pre-validation
attempt; on an exception, re-raise when raise_on_failure is set, otherwise
log and fall through; then invoke the wrapped function and return its
result. The boolean records whether the wrapped function was invoked. -/
def validate_before_run {α β : Type} (v : HookValidator)
    (table_name query suite_name : Option String) (expectations : List Expectation)
    (raise_on_failure : Bool) (funcName : String) (func : α → β) (args : α) :
    Except HookError β × Bool :=
  match pre_attempt v table_name query suite_name expectations raise_on_failure funcName with
  | Except.error e =>
    if raise_on_failure then (Except.error e, false) else (Except.ok (func args), true)
  | Except.ok _ => (Except.ok (func args), true)

/-- The body of the try block of validate_after: identical to the
pre-validation attempt except for the asset name suffix and the message of
the AssertionError. -/
def post_attempt (v : HookValidator) (table_name query suite_name : Option String)
    (expectations : List Expectation) (raise_on_failure : Bool) (funcName : String) :
    Except HookError Unit :=
  if strTruthy table_name then
    match v.validate_table (table_name.getD "") suite_name expectations with
    | Except.error e => Except.error e
    | Except.ok results =>
      if !results.success && raise_on_failure then
        Except.error (HookError.postconditionFailed ("Post-validation failed for " ++ funcName))
      else Except.ok ()
  else if strTruthy query then
    match v.validate_query (query.getD "") (funcName ++ "_post") suite_name expectations with
    | Except.error e => Except.error e
    | Except.ok results =>
      if !results.success && raise_on_failure then
        Except.error (HookError.postconditionFailed ("Post-validation failed for " ++ funcName))
      else Except.ok ()
  else Except.error (HookError.configurationError "Either table_name or query must be provided")

/-- The wrapper installed by validate_after: the wrapped function always
runs first; then the post-validation attempt runs, its exception re-raised
only when raise_on_failure is set, and otherwise the captured result is
returned. The boolean again records invocation of the wrapped function. -/
def validate_after_run {α β : Type} (v : HookValidator)
    (table_name query suite_name : Option String) (expectations : List Expectation)
    (raise_on_failure : Bool) (funcName : String) (func : α → β) (args : α) :
    Except HookError β × Bool :=
  let result := func args
  match post_attempt v table_name query suite_name expectations raise_on_failure funcName with
  | Except.error e =>
    if raise_on_failure then (Except.error e, true) else (Except.ok result, true)
  | Except.ok _ => (Except.ok result, true)

/-- The pre phase of validate_both: guarded by truthiness of table_name or
query_before; the query, when truthy, takes precedence and the table is
set aside for this phase; with neither supplied the phase is a no-op. -/
def both_pre_attempt (v : HookValidator)
    (table_name query_before suite_name_before : Option String)
    (expectations_before : List Expectation) (raise_on_failure : Bool)
    (funcName : String) : Except HookError Unit :=
  if strTruthy table_name || strTruthy query_before then
    let q := if strTruthy query_before then query_before else none
    let t := if !(strTruthy query_before) then table_name else none
    if strTruthy t then
      match v.validate_table (t.getD "") suite_name_before expectations_before with
      | Except.error e => Except.error e
      | Except.ok results =>
        if !results.success && raise_on_failure then
          Except.error (HookError.preconditionFailed ("Pre-validation failed for " ++ funcName))
        else Except.ok ()
    else
      match v.validate_query (q.getD "") (funcName ++ "_pre") suite_name_before
          expectations_before with
      | Except.error e => Except.error e
      | Except.ok results =>
        if !results.success && raise_on_failure then
          Except.error (HookError.preconditionFailed ("Pre-validation failed for " ++ funcName))
        else Except.ok ()
  else Except.ok ()

/-- The post phase of validate_both, symmetric to the pre phase with
query_after taking precedence over the table. -/
def both_post_attempt (v : HookValidator)
    (table_name query_after suite_name_after : Option String)
    (expectations_after : List Expectation) (raise_on_failure : Bool)
    (funcName : String) : Except HookError Unit :=
  if strTruthy table_name || strTruthy query_after then
    let q := if strTruthy query_after then query_after else none
    let t := if !(strTruthy query_after) then table_name else none
    if strTruthy t then
      match v.validate_table (t.getD "") suite_name_after expectations_after with
      | Except.error e => Except.error e
      | Except.ok results =>
        if !results.success && raise_on_failure then
          Except.error (HookError.postconditionFailed ("Post-validation failed for " ++ funcName))
        else Except.ok ()
    else
      match v.validate_query (q.getD "") (funcName ++ "_post") suite_name_after
          expectations_after with
      | Except.error e => Except.error e
      | Except.ok results =>
        if !results.success && raise_on_failure then
          Except.error (HookError.postconditionFailed ("Post-validation failed for " ++ funcName))
        else Except.ok ()
  else Except.ok ()

/-- The tail of the validate_both wrapper once the wrapped function has
produced its result: run the post phase and re-raise its exception only in
strict mode, otherwise return the captured result. -/
def both_post_phase {β : Type} (v : HookValidator)
    (table_name query_after suite_name_after : Option String)
    (expectations_after : List Expectation) (raise_on_failure : Bool)
    (funcName : String) (result : β) : Except HookError β :=
  match both_post_attempt v table_name query_after suite_name_after expectations_after
      raise_on_failure funcName with
  | Except.error e => if raise_on_failure then Except.error e else Except.ok result
  | Except.ok _ => Except.ok result

/-- The wrapper installed by validate_both: pre phase first (an exception
aborts everything in strict mode, and is merely logged otherwise), then
the wrapped function, then the post phase. The boolean records whether the
wrapped function was invoked. -/
def validate_both_run {α β : Type} (v : HookValidator)
    (table_name query_before query_after : Option String)
    (suite_name_before suite_name_after : Option String)
    (expectations_before expectations_after : List Expectation)
    (raise_on_failure : Bool) (funcName : String) (func : α → β) (args : α) :
    Except HookError β × Bool :=
  match both_pre_attempt v table_name query_before suite_name_before expectations_before
      raise_on_failure funcName with
  | Except.error e =>
    if raise_on_failure then (Except.error e, false)
    else
      (both_post_phase v table_name query_after suite_name_after expectations_after
        raise_on_failure funcName (func args), true)
  | Except.ok _ =>
    (both_post_phase v table_name query_after suite_name_after expectations_after
      raise_on_failure funcName (func args), true)

/-- A failed report object, used to instantiate theorem hypotheses. -/
def failReport : Report :=
  { success := false, evaluated_expectations := 1, successful_expectations := 0,
    unsuccessful_expectations := 1, success_percent := 0, results := [] }

/-- A passing report object, used to instantiate theorem hypotheses. -/
def passReport : Report :=
  { success := true, evaluated_expectations := 0, successful_expectations := 0,
    unsuccessful_expectations := 0, success_percent := 100, results := [] }

/-- A validator whose every call returns the failed report. -/
def failingValidator : HookValidator :=
  { validate_table := fun _ _ _ => Except.ok failReport
    validate_query := fun _ _ _ _ => Except.ok failReport }

/-- A validator whose every call returns the passing report. -/
def passingValidator : HookValidator :=
  { validate_table := fun _ _ _ => Except.ok passReport
    validate_query := fun _ _ _ _ => Except.ok passReport }

/-- A validator whose every call fails inside its own evaluation, as on
connectivity loss. -/
def erroringValidator : HookValidator :=
  { validate_table := fun _ _ _ => Except.error (HookError.orchestratorError "connection lost")
    validate_query := fun _ _ _ _ => Except.error (HookError.orchestratorError "connection lost") }

/-- C1: whenever the pre-validation target resolves and its report has
success false, the strict before-hook raises the PreconditionFailed
AssertionError and never invokes the wrapped function, while the
non-strict before-hook invokes the wrapped function and returns its result
unchanged. -/
theorem before_hook_strictness {α β : Type} (v : HookValidator)
    (table_name query suite_name : Option String) (exps : List Expectation)
    (funcName : String) (func : α → β) (args : α) (r : Report)
    (htarget : strTruthy table_name = true
      ∨ (strTruthy table_name = false ∧ strTruthy query = true))
    (hres : (if strTruthy table_name then
          v.validate_table (table_name.getD "") suite_name exps
        else v.validate_query (query.getD "") (funcName ++ "_pre") suite_name exps)
      = Except.ok r)
    (hfail : r.success = false) :
    validate_before_run v table_name query suite_name exps true funcName func args
      = (Except.error
          (HookError.preconditionFailed ("Pre-validation failed for " ++ funcName)), false)
    ∧ validate_before_run v table_name query suite_name exps false funcName func args
      = (Except.ok (func args), true) := by
  rcases htarget with ht | ⟨ht, hq⟩
  · simp only [ht, if_true] at hres
    constructor <;> simp [validate_before_run, pre_attempt, ht, hres, hfail]
  · simp only [ht, Bool.false_eq_true, if_false] at hres
    constructor <;> simp [validate_before_run, pre_attempt, ht, hq, hres, hfail]

/-- C1 witness: the strictness theorem applied to a concrete failing run
over the table target. -/
theorem before_hook_strictness_witness :
    validate_before_run failingValidator (some "users") none none [] true "f"
        (fun n : Nat => n + 1) 3
      = (Except.error
          (HookError.preconditionFailed ("Pre-validation failed for " ++ "f")), false)
    ∧ validate_before_run failingValidator (some "users") none none [] false "f"
        (fun n : Nat => n + 1) 3
      = (Except.ok ((fun n : Nat => n + 1) 3), true) :=
  before_hook_strictness failingValidator (some "users") none none [] "f"
    (fun n : Nat => n + 1) 3 failReport (Or.inl (by decide)) rfl rfl

/-- C2 counterexample: with strict off, an exception raised inside the
validator itself (connectivity loss) does not propagate from the before or
after hook: it is swallowed, the wrapped function runs, and its result is
returned, contradicting the claim that such exceptions always propagate
regardless of strict. -/
theorem hook_error_swallowed_counterexample :
    validate_before_run erroringValidator (some "users") none none [] false "f"
        (fun n : Nat => n + 1) 3
      = (Except.ok 4, true)
    ∧ validate_after_run erroringValidator (some "users") none none [] false "f"
        (fun n : Nat => n + 1) 3
      = (Except.ok 4, true) :=
  ⟨rfl, rfl⟩

/-- Helper: the absent optional string is falsy. -/
theorem strTruthy_none : strTruthy none = false := rfl

/-- Helper: with raise_on_failure off, the post phase of validate_both
swallows every outcome of its attempt and returns the captured result. -/
theorem both_post_phase_lax {β : Type} (v : HookValidator)
    (table_name query_after suite_name_after : Option String)
    (expectations_after : List Expectation) (funcName : String) (result : β) :
    both_post_phase v table_name query_after suite_name_after expectations_after
        false funcName result = Except.ok result := by
  unfold both_post_phase
  cases both_post_attempt v table_name query_after suite_name_after expectations_after
      false funcName <;> simp

/-- A validator that fails inside its own evaluation on every call except a
table call naming the suite ok_suite, which passes; used to instantiate
every hypothesis of the propagation theorem at once. -/
def witnessValidator : HookValidator :=
  { validate_table := fun _ s _ =>
      if s == some "ok_suite" then Except.ok passReport
      else Except.error (HookError.orchestratorError "connection lost")
    validate_query := fun _ _ _ _ =>
      Except.error (HookError.orchestratorError "connection lost") }

/-- C2 amended: for every hook invocation, an exception raised inside the
validator call propagates to the caller unmodified when strict is on, and
when strict is off it is logged and swallowed, the wrapped function still
runs, and its result is returned; in neither mode is it converted into a
failed report. Covered invocations: the before and after hooks over the
table target (truthy tn, validate_table errors) and over the query target
(falsy tn2, truthy q, validate_query errors), and the combined hook with
the error arising in the pre phase (query target winning over any table
tnAny, or table target with falsy query_before qf) or in the post phase
(query target after a skipped pre phase, or table target after a
passing table pre-validation over suite snb). -/
theorem hook_error_propagation {α β : Type} (v : HookValidator)
    (tn tn2 tnAny q q2 qf qf2 : Option String)
    (sn snb sna : Option String) (exps eb ea : List Expectation)
    (funcName : String) (func : α → β) (args : α) (e : HookError) (rOk : Report)
    (htn : strTruthy tn = true)
    (htn2 : strTruthy tn2 = false)
    (hq : strTruthy q = true)
    (hqf : strTruthy qf = false)
    (hqf2 : strTruthy qf2 = false)
    (hvt : v.validate_table (tn.getD "") sn exps = Except.error e)
    (hvq_pre : v.validate_query (q.getD "") (funcName ++ "_pre") sn exps = Except.error e)
    (hvq_post : v.validate_query (q.getD "") (funcName ++ "_post") sn exps = Except.error e)
    (hrOk : rOk.success = true)
    (hvt_ok : v.validate_table (tn.getD "") snb eb = Except.ok rOk)
    (hvt_post : v.validate_table (tn.getD "") sna ea = Except.error e) :
    validate_before_run v tn q2 sn exps true funcName func args = (Except.error e, false)
    ∧ validate_before_run v tn q2 sn exps false funcName func args
      = (Except.ok (func args), true)
    ∧ validate_before_run v tn2 q sn exps true funcName func args = (Except.error e, false)
    ∧ validate_before_run v tn2 q sn exps false funcName func args
      = (Except.ok (func args), true)
    ∧ validate_after_run v tn q2 sn exps true funcName func args = (Except.error e, true)
    ∧ validate_after_run v tn q2 sn exps false funcName func args
      = (Except.ok (func args), true)
    ∧ validate_after_run v tn2 q sn exps true funcName func args = (Except.error e, true)
    ∧ validate_after_run v tn2 q sn exps false funcName func args
      = (Except.ok (func args), true)
    ∧ validate_both_run v tnAny q qf2 sn sna exps ea true funcName func args
      = (Except.error e, false)
    ∧ validate_both_run v tnAny q qf2 sn sna exps ea false funcName func args
      = (Except.ok (func args), true)
    ∧ validate_both_run v tn qf qf2 sn sna exps ea true funcName func args
      = (Except.error e, false)
    ∧ validate_both_run v tn qf qf2 sn sna exps ea false funcName func args
      = (Except.ok (func args), true)
    ∧ validate_both_run v tn2 qf q snb sn eb exps true funcName func args
      = (Except.error e, true)
    ∧ validate_both_run v tn2 qf q snb sn eb exps false funcName func args
      = (Except.ok (func args), true)
    ∧ validate_both_run v tn qf qf2 snb sna eb ea true funcName func args
      = (Except.error e, true)
    ∧ validate_both_run v tn qf qf2 snb sna eb ea false funcName func args
      = (Except.ok (func args), true) := by
  refine ⟨?_, ?_, ?_, ?_, ?_, ?_, ?_, ?_, ?_, ?_, ?_, ?_, ?_, ?_, ?_, ?_⟩
  · simp [validate_before_run, pre_attempt, htn, hvt]
  · simp [validate_before_run, pre_attempt, htn, hvt]
  · simp [validate_before_run, pre_attempt, htn2, hq, hvq_pre]
  · simp [validate_before_run, pre_attempt, htn2, hq, hvq_pre]
  · simp [validate_after_run, post_attempt, htn, hvt]
  · simp [validate_after_run, post_attempt, htn, hvt]
  · simp [validate_after_run, post_attempt, htn2, hq, hvq_post]
  · simp [validate_after_run, post_attempt, htn2, hq, hvq_post]
  · simp [validate_both_run, both_pre_attempt, strTruthy_none, hq, hvq_pre]
  · simp [validate_both_run, both_pre_attempt, both_post_phase_lax, strTruthy_none, hq,
      hvq_pre]
  · simp [validate_both_run, both_pre_attempt, htn, hqf, hvt]
  · simp [validate_both_run, both_pre_attempt, both_post_phase_lax, htn, hqf, hvt]
  · simp [validate_both_run, both_pre_attempt, both_post_phase, both_post_attempt,
      strTruthy_none, htn2, hqf, hq, hvq_post]
  · simp [validate_both_run, both_pre_attempt, both_post_phase_lax, htn2, hqf]
  · simp [validate_both_run, both_pre_attempt, both_post_phase, both_post_attempt,
      htn, hqf, hqf2, hvt_ok, hrOk, hvt_post]
  · simp [validate_both_run, both_pre_attempt, both_post_phase_lax, htn, hqf, hvt_ok, hrOk]

/-- C2 amended witness: the propagation theorem applied to the concrete
witness validator, discharging every hypothesis at explicit inputs. -/
theorem hook_error_propagation_witness :
    validate_before_run witnessValidator (some "users") none none [] true "f"
        (fun n : Nat => n + 1) 3
      = (Except.error (HookError.orchestratorError "connection lost"), false)
    ∧ validate_before_run witnessValidator (some "users") none none [] false "f"
        (fun n : Nat => n + 1) 3
      = (Except.ok ((fun n : Nat => n + 1) 3), true)
    ∧ validate_before_run witnessValidator none (some "SELECT 1") none [] true "f"
        (fun n : Nat => n + 1) 3
      = (Except.error (HookError.orchestratorError "connection lost"), false)
    ∧ validate_before_run witnessValidator none (some "SELECT 1") none [] false "f"
        (fun n : Nat => n + 1) 3
      = (Except.ok ((fun n : Nat => n + 1) 3), true)
    ∧ validate_after_run witnessValidator (some "users") none none [] true "f"
        (fun n : Nat => n + 1) 3
      = (Except.error (HookError.orchestratorError "connection lost"), true)
    ∧ validate_after_run witnessValidator (some "users") none none [] false "f"
        (fun n : Nat => n + 1) 3
      = (Except.ok ((fun n : Nat => n + 1) 3), true)
    ∧ validate_after_run witnessValidator none (some "SELECT 1") none [] true "f"
        (fun n : Nat => n + 1) 3
      = (Except.error (HookError.orchestratorError "connection lost"), true)
    ∧ validate_after_run witnessValidator none (some "SELECT 1") none [] false "f"
        (fun n : Nat => n + 1) 3
      = (Except.ok ((fun n : Nat => n + 1) 3), true)
    ∧ validate_both_run witnessValidator (some "users") (some "SELECT 1") none none none
        [] [] true "f" (fun n : Nat => n + 1) 3
      = (Except.error (HookError.orchestratorError "connection lost"), false)
    ∧ validate_both_run witnessValidator (some "users") (some "SELECT 1") none none none
        [] [] false "f" (fun n : Nat => n + 1) 3
      = (Except.ok ((fun n : Nat => n + 1) 3), true)
    ∧ validate_both_run witnessValidator (some "users") none none none none
        [] [] true "f" (fun n : Nat => n + 1) 3
      = (Except.error (HookError.orchestratorError "connection lost"), false)
    ∧ validate_both_run witnessValidator (some "users") none none none none
        [] [] false "f" (fun n : Nat => n + 1) 3
      = (Except.ok ((fun n : Nat => n + 1) 3), true)
    ∧ validate_both_run witnessValidator none none (some "SELECT 1") (some "ok_suite") none
        [] [] true "f" (fun n : Nat => n + 1) 3
      = (Except.error (HookError.orchestratorError "connection lost"), true)
    ∧ validate_both_run witnessValidator none none (some "SELECT 1") (some "ok_suite") none
        [] [] false "f" (fun n : Nat => n + 1) 3
      = (Except.ok ((fun n : Nat => n + 1) 3), true)
    ∧ validate_both_run witnessValidator (some "users") none none (some "ok_suite") none
        [] [] true "f" (fun n : Nat => n + 1) 3
      = (Except.error (HookError.orchestratorError "connection lost"), true)
    ∧ validate_both_run witnessValidator (some "users") none none (some "ok_suite") none
        [] [] false "f" (fun n : Nat => n + 1) 3
      = (Except.ok ((fun n : Nat => n + 1) 3), true) :=
  hook_error_propagation witnessValidator (some "users") none (some "users")
    (some "SELECT 1") none none none none (some "ok_suite") none [] [] [] "f"
    (fun n : Nat => n + 1) 3 (HookError.orchestratorError "connection lost") passReport
    (by decide) rfl (by decide) rfl rfl rfl rfl rfl rfl rfl rfl

/-- C3 counterexample: supplying both a table name and a query to the
strict before-hook raises nothing at all: the call succeeds and the
wrapped function runs, contradicting the claim that this combination fails
with a ConfigurationError. -/
theorem both_targets_no_error_counterexample :
    validate_before_run passingValidator (some "users") (some "SELECT 1") none [] true "f"
        (fun n : Nat => n + 1) 3
      = (Except.ok 4, true) :=
  rfl

/-- C3 amended: supplying neither a table name nor a query raises the
ConfigurationError ValueError, which reaches the caller only in strict
mode, while in non-strict mode it is swallowed and the wrapped function
still runs; supplying both is not an error: the before-hook behaves
exactly as if only the table had been supplied, the query being ignored. -/
theorem target_resolution_errors {α β : Type} (v : HookValidator)
    (table_name query suite_name : Option String) (exps : List Expectation)
    (funcName : String) (func : α → β) (args : α) (strict : Bool) :
    (strTruthy table_name = false → strTruthy query = false →
      validate_before_run v table_name query suite_name exps true funcName func args
        = (Except.error
            (HookError.configurationError "Either table_name or query must be provided"),
          false)
      ∧ validate_before_run v table_name query suite_name exps false funcName func args
        = (Except.ok (func args), true))
    ∧ (strTruthy table_name = true → ∀ q2 : Option String,
      validate_before_run v table_name q2 suite_name exps strict funcName func args
        = validate_before_run v table_name none suite_name exps strict funcName func args) := by
  constructor
  · intro ht hq
    constructor <;> simp [validate_before_run, pre_attempt, ht, hq]
  · intro ht q2
    simp [validate_before_run, pre_attempt, ht]

/-- C3 witness: the resolution theorem applied with neither target
supplied. -/
theorem target_resolution_errors_witness :
    validate_before_run passingValidator none none none [] true "f"
        (fun n : Nat => n + 1) 3
      = (Except.error
          (HookError.configurationError "Either table_name or query must be provided"),
        false)
    ∧ validate_before_run passingValidator none none none [] false "f"
        (fun n : Nat => n + 1) 3
      = (Except.ok ((fun n : Nat => n + 1) 3), true) :=
  (target_resolution_errors passingValidator none none none [] "f"
    (fun n : Nat => n + 1) 3 true).1 rfl rfl

/-- C10: when both a table and a query are supplied, the before and after
hooks validate the table and silently ignore the query (the run equals the
table-only run), whereas validate_both validates query_before and
query_after and silently ignores the table (the run equals the run with no
table supplied); no error is raised in either case. -/
theorem both_supplied_precedence {α β : Type} (v : HookValidator)
    (table_name query qb qa : Option String)
    (suite_name snb sna : Option String) (exps eb ea : List Expectation)
    (strict : Bool) (funcName : String) (func : α → β) (args : α)
    (ht : strTruthy table_name = true)
    (hqb : strTruthy qb = true) (hqa : strTruthy qa = true) :
    validate_before_run v table_name query suite_name exps strict funcName func args
      = validate_before_run v table_name none suite_name exps strict funcName func args
    ∧ validate_after_run v table_name query suite_name exps strict funcName func args
      = validate_after_run v table_name none suite_name exps strict funcName func args
    ∧ validate_both_run v table_name qb qa snb sna eb ea strict funcName func args
      = validate_both_run v none qb qa snb sna eb ea strict funcName func args := by
  refine ⟨?_, ?_, ?_⟩
  · simp [validate_before_run, pre_attempt, ht]
  · simp [validate_after_run, post_attempt, ht]
  · simp [validate_both_run, both_pre_attempt, both_post_attempt, both_post_phase,
      ht, hqb, hqa]

/-- C10 witness: the precedence theorem applied to a concrete run with a
table plus queries supplied simultaneously. -/
theorem both_supplied_precedence_witness :
    validate_before_run passingValidator (some "users") (some "SELECT 1") none [] true "f"
        (fun n : Nat => n + 1) 3
      = validate_before_run passingValidator (some "users") none none [] true "f"
          (fun n : Nat => n + 1) 3
    ∧ validate_after_run passingValidator (some "users") (some "SELECT 1") none [] true "f"
        (fun n : Nat => n + 1) 3
      = validate_after_run passingValidator (some "users") none none [] true "f"
          (fun n : Nat => n + 1) 3
    ∧ validate_both_run passingValidator (some "users") (some "Q1") (some "Q2") none none
        [] [] true "f" (fun n : Nat => n + 1) 3
      = validate_both_run passingValidator none (some "Q1") (some "Q2") none none
          [] [] true "f" (fun n : Nat => n + 1) 3 :=
  both_supplied_precedence passingValidator (some "users") (some "SELECT 1")
    (some "Q1") (some "Q2") none none none [] [] [] true "f"
    (fun n : Nat => n + 1) 3 (by decide) (by decide) (by decide)

end DbExpectations
